import Mathlib

/-!
Shallow embedding of the verification subsystem of the repository
(`backend/app/services/verification/`): the reliability assessor, the
freshness checker, the cross validator, the fact checker and the
orchestrating verification service, together with the data model they
operate on (`backend/app/models/`).

Conventions of the embedding:
* Python floats are modelled as `ℚ` (the scores are produced by exact
  decimal arithmetic in the source, so rational arithmetic is faithful).
* `datetime` values are modelled as integer timestamps in seconds;
  `timedelta.days` is floor division by 86400, matching Python.
* Nullable columns / `Optional` values are modelled as `Option`.
* Database queries against the trusted/blocked registries are modelled by
  list lookup over an explicit `Registry` state; `scalar_one_or_none` on a
  column with a uniqueness constraint is `List.find?`.
* Library text heuristics (the `difflib` similarity ratio, `dateutil`
  parsing, the regex claim/citation extractors, the `httpx` reachability
  probe) are taken as function parameters: they are external library
  behaviour, not code of this repository, and every theorem below holds
  for all of them.
* In-place mutation of a `DataSource` row is modelled by returning the
  updated record next to the computed verification.
-/

/-- Enumeration `SourceType` from `app/models/data_source.py`. -/
inductive SourceType
  | web_scraping
  | api
  | news
  | government
  | social_media
  | database
deriving DecidableEq, Repr

/-- Enumeration `SourceStatus` from `app/models/data_source.py`. -/
inductive SourceStatus
  | active
  | inactive
  | failed
  | rate_limited
deriving DecidableEq, Repr

/-- Enumeration `VerificationStatus` from `app/models/source_verification.py`. -/
inductive VerificationStatus
  | pending
  | verified
  | failed
  | flagged
  | outdated
deriving DecidableEq, Repr

/-- Enumeration `ReliabilityRating` from `app/models/source_verification.py`. -/
inductive ReliabilityRating
  | excellent
  | good
  | fair
  | poor
  | unreliable
deriving DecidableEq, Repr

/-- Row of the `trusted_sources` table (`app/models/source_verification.py`). -/
structure TrustedSource where
  domain : String
  name : String
  trust_score : ℚ
  category : Option String
  description : Option String
  is_official : Bool
deriving DecidableEq, Repr

/-- Row of the `blocked_sources` table (`app/models/source_verification.py`). -/
structure BlockedSource where
  domain : String
  reason : String
  blocked_by : Option String
  is_permanent : Bool
deriving DecidableEq, Repr

/-- Row of the `data_sources` table (`app/models/data_source.py`), restricted
to the fields the verification subsystem reads or writes. -/
structure DataSource where
  id : Nat
  name : String
  source_type : SourceType
  url : Option String
  reliability_score : ℚ
  success_rate : Option ℚ
  status : SourceStatus
  category : Option String
  last_successful_fetch : Option Int
  last_failed_fetch : Option Int
deriving DecidableEq, Repr

/-- Row of the `collected_data` table (`app/models/collected_data.py`),
restricted to the fields the verification subsystem reads. -/
structure CollectedData where
  id : Nat
  source_id : Nat
  research_id : Option Nat
  raw_content : String
  processed_content : Option String
  content_date : Option Int
  collected_date : Int
  extra_metadata : Option (List (String × String))
deriving DecidableEq, Repr

/-- Sub-score dictionary stored under `verification_metadata` by
`ReliabilityAssessor.assess_source`. -/
structure SubScores where
  domain_trust_score : ℚ
  success_rate_score : ℚ
  freshness_score : ℚ
  content_quality_score : ℚ
deriving DecidableEq, Repr

/-- Result dictionary of `FreshnessChecker.check_freshness`. Keys that a
branch of the Python code does not put into the dictionary are `none`. -/
structure FreshnessResult where
  is_fresh : Option Bool
  content_date : Option Int
  days_old : Option Int
  threshold_days : Int
  is_outdated : Option Bool
  freshness_score : Option ℚ
  warning : Option String
deriving DecidableEq, Repr

/-- Row of the `source_verifications` table, restricted to the fields the
verification subsystem writes.  The JSON `verification_metadata` column is
split into its two typed payloads (`SubScores` from the assessor and the
freshness-check dictionary). -/
structure SourceVerification where
  source_id : Nat
  status : VerificationStatus
  reliability_rating : Option ReliabilityRating
  reliability_score : ℚ
  trustworthiness_score : ℚ
  content_quality_score : Option ℚ
  last_update_check : Option Int
  content_date : Option Int
  is_outdated : Bool
  days_since_update : Option Int
  fact_check_performed : Bool
  fact_check_passed : Option Bool
  verified_claims : Nat
  total_claims : Nat
  verification_notes : Option String
  issues_found : List String
  verification_metadata : Option SubScores
  freshness_meta : Option FreshnessResult
  verified_at : Option Int
deriving DecidableEq, Repr

/-- State of the trusted/blocked domain registries (the two tables owned by
the verification core). -/
structure Registry where
  trusted : List TrustedSource
  blocked : List BlockedSource
deriving DecidableEq, Repr

/-- Empty registry state. -/
def Registry.empty : Registry := ⟨[], []⟩

/-- Models the Python idiom `processed_content or raw_content`: the processed
content when it is present and non-empty (truthy), otherwise the raw
content. -/
def contentBody (d : CollectedData) : String :=
  match d.processed_content with
  | some s => if s = "" then d.raw_content else s
  | none => d.raw_content

/-- Character-list prefix test (helper for the substring test below). -/
def charsHavePrefix : List Char → List Char → Bool
  | [], _ => true
  | _ :: _, [] => false
  | a :: as, b :: bs => a == b && charsHavePrefix as bs

/-- Substring occurrence over character lists. -/
def charsContain (s pat : List Char) : Bool :=
  match s with
  | [] => pat.isEmpty
  | _ :: rest => charsHavePrefix pat s || charsContain rest pat

/-- Substring test, modelling the Python `pat in s` operator for the
non-empty literal indicator strings used by the domain heuristics. -/
def strContains (s pat : String) : Bool :=
  charsContain s.data pat.data

/-- Lower-casing by character, modelling Python `str.lower` on the ASCII
domain strings used by the heuristics. -/
def strToLower (s : String) : String :=
  ⟨s.data.map Char.toLower⟩

/-- Scan for the first `//` occurrence (helper for the netloc model). -/
def dropThroughDoubleSlash : List Char → Option (List Char)
  | [] => none
  | [_] => none
  | a :: b :: rest =>
      if a = '/' && b = '/' then some rest
      else dropThroughDoubleSlash (b :: rest)

/-- Models `urllib.parse.urlparse(url).netloc` for the `scheme://host/path`
URLs this codebase handles: the text between the first `//` and the next
path, query or fragment delimiter (`ReliabilityAssessor._extract_domain`). -/
def extractDomain (url : String) : String :=
  match dropThroughDoubleSlash url.data with
  | none => ""
  | some rest =>
      ⟨(rest.takeWhile (fun c => c != '/')).takeWhile
        (fun c => c != '?' && c != '#')⟩

/-- Weight factors set up in `ReliabilityAssessor.__init__`. -/
structure Weights where
  domain_trust : ℚ
  success_rate : ℚ
  freshness : ℚ
  content_quality : ℚ
  cross_validation : ℚ
deriving DecidableEq, Repr

/-- Weight dictionary of `ReliabilityAssessor.__init__`. -/
def weights : Weights where
  domain_trust := 35/100
  success_rate := 25/100
  freshness := 20/100
  content_quality := 15/100
  cross_validation := 5/100

/-- Port of `ReliabilityAssessor._is_government_domain`. -/
def is_government_domain (domain : String) : Bool :=
  [".gov.ru", ".ru/gov", "gosuslugi", "government"].any
    (fun ind => strContains (strToLower domain) ind)

/-- Port of `ReliabilityAssessor._is_educational_domain`. -/
def is_educational_domain (domain : String) : Bool :=
  [".edu", ".ac.ru", "university", "institut"].any
    (fun ind => strContains (strToLower domain) ind)

/-- Port of `ReliabilityAssessor._is_research_domain`. -/
def is_research_domain (domain : String) : Bool :=
  ["research", "scholar", "science", "academic", "nih.gov"].any
    (fun ind => strContains (strToLower domain) ind)

/-- Port of `ReliabilityAssessor._is_news_domain`. -/
def is_news_domain (domain : String) : Bool :=
  ["news", "tass", "interfax", "ria", "rbc", "kommersant"].any
    (fun ind => strContains (strToLower domain) ind)

/-- Port of `ReliabilityAssessor._is_source_blocked`: a source with no URL is
never blocked; otherwise the blocked registry is queried by extracted
domain. -/
def is_source_blocked (rg : Registry) (source : DataSource) : Bool :=
  match source.url with
  | none => false
  | some url =>
      (rg.blocked.find? (fun b => b.domain = extractDomain url)).isSome

/-- Port of `ReliabilityAssessor._calculate_domain_trust`: exact trusted
registry lookup first, then the ordered domain-pattern heuristics, else the
neutral 0.5. -/
def calculate_domain_trust (rg : Registry) (source : DataSource) : ℚ :=
  match source.url with
  | none => 1/2
  | some url =>
      let domain := extractDomain url
      match rg.trusted.find? (fun t => t.domain = domain) with
      | some trusted => trusted.trust_score
      | none =>
          if is_government_domain domain then 95/100
          else if is_educational_domain domain then 85/100
          else if is_research_domain domain then 80/100
          else if is_news_domain domain then 60/100
          else 1/2

/-- Port of `ReliabilityAssessor._calculate_success_rate`. -/
def calculate_success_rate (source : DataSource) : ℚ :=
  match source.success_rate with
  | some r => r
  | none => 1/2

/-- Port of `ReliabilityAssessor._calculate_freshness_score`: step function
of whole days since the last successful fetch. -/
def calculate_freshness_score (now : Int) (source : DataSource) : ℚ :=
  match source.last_successful_fetch with
  | none => 1/2
  | some t =>
      let days_since_fetch := Int.fdiv (now - t) 86400
      if days_since_fetch ≤ 1 then 1
      else if days_since_fetch ≤ 7 then 9/10
      else if days_since_fetch ≤ 30 then 7/10
      else if days_since_fetch ≤ 90 then 1/2
      else if days_since_fetch ≤ 180 then 3/10
      else 1/10

/-- Port of `ReliabilityAssessor._calculate_content_quality`: source-type
proxy table with neutral 0.5 default. -/
def calculate_content_quality (source : DataSource) : ℚ :=
  match source.source_type with
  | .government => 9/10
  | .api => 85/100
  | .database => 8/10
  | .news => 6/10
  | .web_scraping => 1/2
  | _ => 1/2

/-- Port of `ReliabilityAssessor._get_reliability_rating`. -/
def get_reliability_rating (score : ℚ) : ReliabilityRating :=
  if score ≥ 9/10 then .excellent
  else if score ≥ 7/10 then .good
  else if score ≥ 1/2 then .fair
  else if score ≥ 3/10 then .poor
  else .unreliable

/-- Port of `ReliabilityAssessor._determine_verification_status`. -/
def determine_verification_status (score : ℚ) : VerificationStatus :=
  if score ≥ 7/10 then .verified
  else if score ≥ 1/2 then .flagged
  else .failed

/-- Port of `ReliabilityAssessor._create_blocked_verification`.  Returns the
verification record together with the mutated source row (the Python code
sets `source.reliability_score = 0.0` and `source.status = FAILED`). -/
def create_blocked_verification (rg : Registry) (now : Int)
    (source : DataSource) : SourceVerification × DataSource :=
  let domain := match source.url with
    | some url => extractDomain url
    | none => "unknown"
  let blocked := rg.blocked.find? (fun b => b.domain = domain)
  let reason := match blocked with
    | some b => b.reason
    | none => "Unknown reason"
  let verification : SourceVerification :=
    { source_id := source.id
      status := .failed
      reliability_rating := some .unreliable
      reliability_score := 0
      trustworthiness_score := 0
      content_quality_score := none
      last_update_check := some now
      content_date := none
      is_outdated := false
      days_since_update := none
      fact_check_performed := false
      fact_check_passed := none
      verified_claims := 0
      total_claims := 0
      verification_notes := some ("Source is in blacklist: " ++ reason)
      issues_found := ["blocked_source"]
      verification_metadata := none
      freshness_meta := none
      verified_at := none }
  (verification, { source with reliability_score := 0, status := .failed })

/-- Port of `ReliabilityAssessor.assess_source`: blocked-registry
short-circuit, then the four sub-scores combined with the fixed weights.
Returns the verification record together with the mutated source row (the
Python code sets `source.reliability_score = reliability_score`). -/
def assess_source (rg : Registry) (now : Int)
    (source : DataSource) : SourceVerification × DataSource :=
  if is_source_blocked rg source then
    create_blocked_verification rg now source
  else
    let domain_trust_score := calculate_domain_trust rg source
    let success_rate_score := calculate_success_rate source
    let freshness_score := calculate_freshness_score now source
    let content_quality_score := calculate_content_quality source
    let reliability_score :=
      domain_trust_score * weights.domain_trust
        + success_rate_score * weights.success_rate
        + freshness_score * weights.freshness
        + content_quality_score * weights.content_quality
    let reliability_rating := get_reliability_rating reliability_score
    let status := determine_verification_status reliability_score
    let verification : SourceVerification :=
      { source_id := source.id
        status := status
        reliability_rating := some reliability_rating
        reliability_score := reliability_score
        trustworthiness_score := domain_trust_score
        content_quality_score := some content_quality_score
        last_update_check := some now
        content_date := none
        is_outdated := false
        days_since_update := none
        fact_check_performed := false
        fact_check_passed := none
        verified_claims := 0
        total_claims := 0
        verification_notes := none
        issues_found := []
        verification_metadata := some
          { domain_trust_score := domain_trust_score
            success_rate_score := success_rate_score
            freshness_score := freshness_score
            content_quality_score := content_quality_score }
        freshness_meta := none
        verified_at := if status = .verified then some now else none }
    (verification, { source with reliability_score := reliability_score })

/-- Port of `ReliabilityAssessor.add_trusted_source`: constructs the row
from the caller-supplied arguments verbatim (no validation) and appends it
to the trusted registry.  Returns the new registry state and the row. -/
def add_trusted_source (rg : Registry) (domain name : String)
    (trust_score : ℚ) (category description : Option String)
    (is_official : Bool) : Registry × TrustedSource :=
  let trusted_source : TrustedSource :=
    { domain := domain
      name := name
      trust_score := trust_score
      category := category
      description := description
      is_official := is_official }
  ({ rg with trusted := rg.trusted ++ [trusted_source] }, trusted_source)

/-- Port of `ReliabilityAssessor.block_source`: appends the blocked row to
the blocked registry.  Returns the new registry state and the row. -/
def block_source (rg : Registry) (domain reason : String)
    (blocked_by : Option String) (is_permanent : Bool) :
    Registry × BlockedSource :=
  let blocked_source : BlockedSource :=
    { domain := domain
      reason := reason
      blocked_by := blocked_by
      is_permanent := is_permanent }
  ({ rg with blocked := rg.blocked ++ [blocked_source] }, blocked_source)

/-- Freshness-threshold dictionary from `FreshnessChecker.__init__` (days by
content category). -/
def freshness_thresholds (category : String) : Option Int :=
  if category = "market_data" then some 30
  else if category = "news" then some 90
  else if category = "statistics" then some 365
  else if category = "research" then some 730
  else if category = "general" then some 180
  else none

/-- Models `self.freshness_thresholds.get(category, 180)`.  The category can
be Python `None` (when the item's source has no category), which is simply a
key absent from the dictionary. -/
def freshness_threshold_get (category : Option String) : Int :=
  match category with
  | some c => (freshness_thresholds c).getD 180
  | none => 180

/-- Lookup of a key in the item's JSON `extra_metadata` dictionary. -/
def lookupMeta (meta : Option (List (String × String))) (key : String) :
    Option String :=
  match meta with
  | none => none
  | some kvs => (kvs.find? (fun kv => kv.1 = key)).map (fun kv => kv.2)

/-- Port of `FreshnessChecker._extract_content_date`: explicit content date,
else metadata keys (note the early `return` hands back the parse result even
when parsing fails), else pattern extraction from the text, else the
collection date.  `parseDate` models `dateutil`-based `_parse_date` and
`extractTextDate` models the regex-based `_extract_date_from_text`; both are
library/locale heuristics abstracted as parameters. -/
def extract_content_date (parseDate : String → Option Int)
    (extractTextDate : String → Option Int) (collected_data : CollectedData) :
    Option Int :=
  match collected_data.content_date with
  | some cd => some cd
  | none =>
      match lookupMeta collected_data.extra_metadata "publication_date" with
      | some v => parseDate v
      | none =>
          match lookupMeta collected_data.extra_metadata "date" with
          | some v => parseDate v
          | none =>
              match extractTextDate (contentBody collected_data) with
              | some t => some t
              | none => some collected_data.collected_date

/-- Port of `FreshnessChecker._calculate_freshness_score`: 1.0 at age ≤ 0,
0.0 from age 2×threshold on, linear decay clamped to [0,1] in between. -/
def calculate_item_freshness_score (days_old threshold : Int) : ℚ :=
  if days_old ≤ 0 then 1
  else if days_old ≥ threshold * 2 then 0
  else max 0 (min 1 (1 - (days_old : ℚ) / ((threshold * 2 : Int) : ℚ)))

/-- Port of `FreshnessChecker.check_freshness`. -/
def check_freshness (parseDate extractTextDate : String → Option Int)
    (now : Int) (collected_data : CollectedData) (category : Option String) :
    FreshnessResult :=
  match extract_content_date parseDate extractTextDate collected_data with
  | none =>
      { is_fresh := none
        content_date := none
        days_old := none
        threshold_days := freshness_threshold_get category
        is_outdated := none
        freshness_score := none
        warning := some "Unable to determine content date" }
  | some cd =>
      let days_old := Int.fdiv (now - cd) 86400
      let threshold := freshness_threshold_get category
      let is_fresh := decide (days_old ≤ threshold)
      { is_fresh := some is_fresh
        content_date := some cd
        days_old := some days_old
        threshold_days := threshold
        is_outdated := some (!is_fresh)
        freshness_score := some (calculate_item_freshness_score days_old threshold)
        warning :=
          if is_fresh then none
          else some ("Data is " ++ toString days_old
            ++ " days old, exceeds threshold of " ++ toString threshold ++ " days") }

/-- Port of `FreshnessChecker.update_verification_freshness`: copies the
freshness fields onto the verification record and, when the item is
outdated, appends the `"outdated_content"` issue and downgrades a
`verified` status to `flagged`. -/
def update_verification_freshness (now : Int)
    (verification : SourceVerification) (freshness_result : FreshnessResult) :
    SourceVerification :=
  let v := { verification with
    last_update_check := some now
    content_date := freshness_result.content_date
    is_outdated := freshness_result.is_outdated.getD false
    days_since_update := freshness_result.days_old }
  let v :=
    if freshness_result.is_outdated.getD false then
      let issues :=
        if v.issues_found.contains "outdated_content" then v.issues_found
        else v.issues_found ++ ["outdated_content"]
      let v := { v with issues_found := issues }
      if v.status = .verified then { v with status := .flagged } else v
    else v
  { v with freshness_meta := some freshness_result }

/-- Result dictionary of `CrossValidator._compare_content`. -/
structure CompareResult where
  similarity : ℚ
  is_matching : Bool
  differences : List String
deriving DecidableEq, Repr

/-- Default similarity threshold set in `CrossValidator.__init__`. -/
def similarity_threshold : ℚ := 7/10

/-- Port of `CrossValidator._compare_content`.  `simFn` models
`difflib.SequenceMatcher(None, a, b).ratio()` and `diffFn` models the
`difflib.unified_diff` line list; both are library behaviour abstracted as
parameters.  An empty (falsy) content body on either side short-circuits to
similarity 0.0 / not matching. -/
def compare_content (simFn : String → String → ℚ)
    (diffFn : String → String → List String)
    (content1 content2 : String) : CompareResult :=
  if content1 = "" || content2 = "" then
    { similarity := 0
      is_matching := false
      differences := ["One or both contents are empty"] }
  else
    let similarity := simFn content1 content2
    let is_matching := decide (similarity ≥ similarity_threshold)
    { similarity := similarity
      is_matching := is_matching
      differences := if is_matching then [] else (diffFn content1 content2).take 50 }

/-- One entry of the per-related-item comparison list built by
`CrossValidator.validate_data`. -/
structure Comparison where
  source_id : Nat
  similarity : ℚ
  is_matching : Bool
  differences : List String
deriving DecidableEq, Repr

/-- Port of `CrossValidator._calculate_confidence`: agreement ratio with a
low-sample penalty (halved at exactly one comparison) and a high-sample
bonus (×1.2 capped at 1.0 from five comparisons on). -/
def calculate_confidence (matching_count total_count : Nat) : ℚ :=
  if total_count = 0 then 0
  else
    let agreement_ratio : ℚ := (matching_count : ℚ) / (total_count : ℚ)
    if total_count = 1 then agreement_ratio * (1/2)
    else if total_count ≥ 5 then min 1 (agreement_ratio * (12/10))
    else agreement_ratio

/-- Port of `CrossValidator._determine_validation_status`. -/
def determine_validation_status (agreement_percentage : ℚ) :
    VerificationStatus :=
  if agreement_percentage ≥ 80 then .verified
  else if agreement_percentage ≥ 50 then .flagged
  else .failed

/-- Port of `CrossValidator._find_consensus`: the current simplification
returns the primary item's content body unchanged. -/
def find_consensus (primary_data : CollectedData)
    (_related_data : List CollectedData) : Option String :=
  some (contentBody primary_data)

/-- Row of the `data_validations` table as populated by
`CrossValidator.validate_data` (the JSON `validation_details` column is
split into its typed payloads: the compared total, the comparison list and
the no-related-data note). -/
structure DataValidation where
  collected_data_id : Nat
  is_validated : Bool
  validation_status : VerificationStatus
  matching_sources_count : Nat
  contradicting_sources_count : Nat
  consensus_value : Option String
  confidence_score : Option ℚ
  agreement_percentage : Option ℚ
  total_sources_compared : Nat
  comparisons : List Comparison
  contradictions : Option (List Comparison)
  supporting_sources : List Nat
  note : Option String
  validated_at : Option Int
deriving DecidableEq, Repr

/-- Port of `CrossValidator._create_unvalidated_result`: the record returned
when no related data is available (null confidence and agreement, `pending`
status). -/
def create_unvalidated_result (collected_data : CollectedData) :
    DataValidation :=
  { collected_data_id := collected_data.id
    is_validated := false
    validation_status := .pending
    matching_sources_count := 0
    contradicting_sources_count := 0
    consensus_value := none
    confidence_score := none
    agreement_percentage := none
    total_sources_compared := 0
    comparisons := []
    contradictions := none
    supporting_sources := []
    note := some "No related data available for cross-validation"
    validated_at := none }

/-- Port of `CrossValidator.validate_data`. -/
def validate_data (simFn : String → String → ℚ)
    (diffFn : String → String → List String) (now : Int)
    (collected_data : CollectedData) (related_data : List CollectedData) :
    DataValidation :=
  if related_data = [] then
    create_unvalidated_result collected_data
  else
    let comparisons : List Comparison := related_data.map (fun related =>
      let comparison :=
        compare_content simFn diffFn (contentBody collected_data)
          (contentBody related)
      { source_id := related.source_id
        similarity := comparison.similarity
        is_matching := comparison.is_matching
        differences := comparison.differences })
    let matching := comparisons.countP (fun c => c.is_matching)
    let contradicting := comparisons.length - matching
    let confidence_score := calculate_confidence matching comparisons.length
    let agreement_percentage : ℚ :=
      (matching : ℚ) / (comparisons.length : ℚ) * 100
    let is_validated := decide (agreement_percentage ≥ 50)
    let validation_status := determine_validation_status agreement_percentage
    let consensus_value := find_consensus collected_data related_data
    let contradictions := comparisons.filter (fun c => !c.is_matching)
    { collected_data_id := collected_data.id
      is_validated := is_validated
      validation_status := validation_status
      matching_sources_count := matching
      contradicting_sources_count := contradicting
      consensus_value := consensus_value
      confidence_score := some confidence_score
      agreement_percentage := some agreement_percentage
      total_sources_compared := comparisons.length
      comparisons := comparisons
      contradictions := if contradictions = [] then none else some contradictions
      supporting_sources :=
        (comparisons.filter (fun c => c.is_matching)).map (fun c => c.source_id)
      note := none
      validated_at := if is_validated then some now else none }

/-- Outcome of the `httpx` HEAD probe for one citation URL, as observed by
`FactChecker._verify_citations`: a response with a status code, a transport
failure (`httpx.RequestError`), or any other exception. -/
inductive ProbeOutcome
  | success (status_code : Nat)
  | request_failure (msg : String)
  | other_failure (msg : String)
deriving DecidableEq, Repr

/-- Result dictionary of `FactChecker._verify_citations`: citation URLs
classified as valid, invalid or errored. -/
structure CitationCheck where
  valid : List String
  invalid : List String
  errors : List String
deriving DecidableEq, Repr

/-- Port of `FactChecker._verify_citations`: probes at most the first 20
citations; a response below status 400 is valid, an error status or a
transport failure is invalid, any other exception is recorded under
errors.  The network behaviour is the `probe` parameter. -/
def verify_citations (probe : String → ProbeOutcome)
    (citations : List String) : CitationCheck :=
  (citations.take 20).foldl
    (fun acc url =>
      match probe url with
      | .success code =>
          if code < 400 then { acc with valid := acc.valid ++ [url] }
          else { acc with invalid := acc.invalid ++ [url] }
      | .request_failure _ => { acc with invalid := acc.invalid ++ [url] }
      | .other_failure _ => { acc with errors := acc.errors ++ [url] })
    ⟨[], [], []⟩

/-- Result dictionary of `FactChecker.check_facts` (the list-typed keys are
kept in the `CitationCheck` argument and are omitted here). -/
structure FactCheck where
  fact_check_performed : Bool
  fact_check_passed : Bool
  total_claims : Nat
  verified_claims : Nat
  verification_rate : ℚ
deriving DecidableEq, Repr

/-- Port of `FactChecker.check_facts`: counts extracted claims, citations
and statistics, takes the reachable citations as verified, and passes the
check at a 70% verification rate (vacuously when nothing was extracted).
The three regex extractors (`_extract_claims`, `_extract_citations`,
`_extract_statistics`) are locale-specific heuristics abstracted as the
function parameters; the updated verification record is returned next to
the result. -/
def check_facts (extract_claimsFn extract_citationsFn extract_statisticsFn :
      String → List String) (probe : String → ProbeOutcome)
    (collected_data : CollectedData) (verification : SourceVerification) :
    FactCheck × SourceVerification :=
  let content := contentBody collected_data
  let claims := extract_claimsFn content
  let citations := extract_citationsFn content
  let verified_citations := verify_citations probe citations
  let stats := extract_statisticsFn content
  let total_claims := claims.length + citations.length + stats.length
  let verified_claims := verified_citations.valid.length
  let fact_check_passed :=
    if total_claims > 0 then
      decide ((verified_claims : ℚ) / (total_claims : ℚ) ≥ 7/10)
    else true
  let verification := { verification with
    fact_check_performed := true
    fact_check_passed := some fact_check_passed
    verified_claims := verified_claims
    total_claims := total_claims }
  ({ fact_check_performed := true
     fact_check_passed := fact_check_passed
     total_claims := total_claims
     verified_claims := verified_claims
     verification_rate :=
       if total_claims > 0 then (verified_claims : ℚ) / (total_claims : ℚ)
       else 0 },
   verification)

/-- Port of `FactChecker.flag_unverified_data`: appends the
`"failed_fact_check"` issue and a note when a performed fact-check did not
pass (Python tests `not verification.fact_check_passed`, so a null flag
counts as failed here). -/
def flag_unverified_data (verification : SourceVerification) :
    SourceVerification :=
  if !verification.fact_check_performed then verification
  else if !(verification.fact_check_passed.getD false) then
    let issues :=
      if verification.issues_found.contains "failed_fact_check" then
        verification.issues_found
      else verification.issues_found ++ ["failed_fact_check"]
    let note := "Fact-check failed: " ++ toString verification.verified_claims
      ++ "/" ++ toString verification.total_claims ++ " claims verified"
    let notes := match verification.verification_notes with
      | some n => some (n ++ "\n" ++ note)
      | none => some note
    { verification with issues_found := issues, verification_notes := notes }
  else verification

/-- Models the Python idiom `source.category or "general"` used by
`VerificationService.verify_source`. -/
def pyOrCategory (category : Option String) : String :=
  match category with
  | some c => if c = "" then "general" else c
  | none => "general"

/-- Port of `VerificationService.verify_source`.  `latest_data` is the
result of the most-recent-item store query (external collaborator).  The
returned boolean records whether the freshness merge step ran: the Python
code returns right after the reliability assessment whenever the
verification status is `failed` (blocked source or low score), and
otherwise merges freshness only under `fullCheck` with a prior successful
fetch and an available latest item. -/
def verify_source (rg : Registry)
    (parseDate extractTextDate : String → Option Int) (now : Int)
    (latest_data : Option CollectedData) (source : DataSource)
    (perform_full_check : Bool) :
    SourceVerification × DataSource × Bool :=
  let (verification, source) := assess_source rg now source
  if verification.status = .failed then
    (verification, source, false)
  else if source.last_successful_fetch.isSome && perform_full_check then
    match latest_data with
    | some latest =>
        let freshness_result := check_freshness parseDate extractTextDate now
          latest (some (pyOrCategory source.category))
        (update_verification_freshness now verification freshness_result,
          source, true)
    | none => (verification, source, false)
  else (verification, source, false)

/-- Summary dictionary stored under `results["source_verification"]` by
`VerificationService.verify_collected_data`. -/
structure SourceVerSummary where
  status : VerificationStatus
  reliability_score : ℚ
  reliability_rating : Option ReliabilityRating
deriving DecidableEq, Repr

/-- Summary dictionary stored under `results["cross_validation"]` by
`VerificationService.verify_collected_data`.  The confidence score and
agreement percentage come from nullable record fields, so they can be the
Python `None`. -/
structure CrossValSummary where
  is_validated : Bool
  validation_status : VerificationStatus
  confidence_score : Option ℚ
  agreement_percentage : Option ℚ
  matching_sources : Nat
  contradicting_sources : Nat
deriving DecidableEq, Repr

/-- The `results` dictionary handed to
`VerificationService._generate_overall_assessment`. -/
structure CompositeResults where
  source_verification : Option SourceVerSummary
  freshness : FreshnessResult
  cross_validation : Option CrossValSummary
  fact_check : Option FactCheck
deriving DecidableEq, Repr

/-- The overall assessment dictionary built by
`VerificationService._generate_overall_assessment`. -/
structure Assessment where
  reliability : String
  is_trustworthy : Bool
  confidence_level : String
  issues : List String
  warnings : List String
  recommendations : List String
deriving DecidableEq, Repr

/-- Error message for the Python `TypeError` raised when the comparison
`cross_val.get("confidence_score", 0) >= 0.7` meets a present key holding
`None` (the `dict.get` default applies only to absent keys). -/
def confidenceNoneTypeError : String :=
  "TypeError: comparison not supported between NoneType and float"

/-- Port of `VerificationService._generate_overall_assessment`.  The result
is `Except` because the cross-validation step compares
`cross_val.get("confidence_score", 0)` against floats: when the
cross-validation summary carries a null confidence score (no related data),
that key is present with value `None` and the comparison raises a
`TypeError` in Python. -/
def generate_overall_assessment (results : CompositeResults) :
    Except String Assessment :=
  let assessment : Assessment :=
    { reliability := "unknown"
      is_trustworthy := false
      confidence_level := "low"
      issues := []
      warnings := []
      recommendations := [] }
  let assessment := match results.source_verification with
    | none => assessment
    | some source_ver =>
        let reliability_score := source_ver.reliability_score
        if reliability_score ≥ 7/10 then
          { assessment with
            reliability := "high"
            is_trustworthy := true
            confidence_level := "high" }
        else if reliability_score ≥ 1/2 then
          { assessment with
            reliability := "medium"
            confidence_level := "medium"
            warnings := assessment.warnings ++ ["Source has moderate reliability"] }
        else
          { assessment with
            reliability := "low"
            issues := assessment.issues ++ ["Source has low reliability score"] }
  let assessment :=
    if results.freshness.is_outdated.getD false then
      let days := match results.freshness.days_old with
        | some d => toString d
        | none => "None"
      { assessment with
        issues := assessment.issues ++ ["Data is outdated (" ++ days ++ " days old)"]
        recommendations := assessment.recommendations
          ++ ["Consider finding more recent data"] }
    else assessment
  let step : Except String Assessment := match results.cross_validation with
    | none => .ok assessment
    | some cross_val =>
        let assessment :=
          if cross_val.contradicting_sources > 0 then
            { assessment with
              warnings := assessment.warnings ++ ["Data contradicts other sources"]
              recommendations := assessment.recommendations
                ++ ["Review contradicting sources for accuracy"] }
          else assessment
        match cross_val.confidence_score with
        | none => .error confidenceNoneTypeError
        | some confidence =>
            .ok (if confidence ≥ 7/10 then
                { assessment with is_trustworthy := true }
              else if confidence < 1/2 then
                { assessment with
                  is_trustworthy := false
                  issues := assessment.issues
                    ++ ["Low confidence from cross-validation"] }
              else assessment)
  match step with
  | .error e => .error e
  | .ok assessment =>
      let assessment := match results.fact_check with
        | none => assessment
        | some fact_check =>
            if !fact_check.fact_check_passed then
              { assessment with
                issues := assessment.issues ++ ["Failed fact-checking"]
                recommendations := assessment.recommendations
                  ++ ["Verify claims against official sources"] }
            else assessment
      let confidence_level :=
        if assessment.issues.length = 0 && assessment.is_trustworthy then "high"
        else if assessment.issues.length > 2 then "low"
        else "medium"
      .ok { assessment with confidence_level := confidence_level }

/-- Composite result of `VerificationService.verify_collected_data`. -/
structure CompositeOutput where
  source_verification : Option SourceVerSummary
  freshness : FreshnessResult
  cross_validation : Option CrossValSummary
  fact_check : Option FactCheck
  overall_assessment : Assessment
deriving DecidableEq, Repr

/-- Port of `VerificationService.verify_collected_data`.  `sourceOpt` is the
source-store lookup result for the item's source id and `related_data` is
the sibling-item query result (same research, different source) — both are
external store collaborators.  The `Except` captures the two ways the
Python function can raise: the `NameError` on `source_verification` when
the source lookup failed and a fact-check is requested, and the `TypeError`
inside `_generate_overall_assessment`. -/
def verify_collected_data (rg : Registry)
    (parseDate extractTextDate : String → Option Int)
    (simFn : String → String → ℚ)
    (diffFn : String → String → List String)
    (extract_claimsFn extract_citationsFn extract_statisticsFn :
      String → List String) (probe : String → ProbeOutcome) (now : Int)
    (sourceOpt : Option DataSource) (related_data : List CollectedData)
    (collected_data : CollectedData)
    (perform_cross_validation perform_fact_check : Bool) :
    Except String CompositeOutput :=
  let source_verification : Option SourceVerification :=
    match sourceOpt with
    | some source =>
        some (verify_source rg parseDate extractTextDate now none source false).1
    | none => none
  let source_ver_summary : Option SourceVerSummary :=
    match source_verification with
    | some sv => some
        { status := sv.status
          reliability_score := sv.reliability_score
          reliability_rating := sv.reliability_rating }
    | none => none
  let category : Option String := match sourceOpt with
    | some source => source.category
    | none => some "general"
  let freshness_result :=
    check_freshness parseDate extractTextDate now collected_data category
  let cross_validation : Option CrossValSummary :=
    if perform_cross_validation then
      let validation := validate_data simFn diffFn now collected_data related_data
      some
        { is_validated := validation.is_validated
          validation_status := validation.validation_status
          confidence_score := validation.confidence_score
          agreement_percentage := validation.agreement_percentage
          matching_sources := validation.matching_sources_count
          contradicting_sources := validation.contradicting_sources_count }
    else none
  let fact_step : Except String (Option FactCheck) :=
    if perform_fact_check then
      match source_verification with
      | some sv =>
          let (fact_check_result, sv) :=
            check_facts extract_claimsFn extract_citationsFn
              extract_statisticsFn probe collected_data sv
          let _flagged := flag_unverified_data sv
          .ok (some fact_check_result)
      | none =>
          .error "NameError: source_verification referenced before assignment"
    else .ok none
  match fact_step with
  | .error e => .error e
  | .ok fact_check =>
      let results : CompositeResults :=
        { source_verification := source_ver_summary
          freshness := freshness_result
          cross_validation := cross_validation
          fact_check := fact_check }
      match generate_overall_assessment results with
      | .error e => .error e
      | .ok overall => .ok
          { source_verification := source_ver_summary
            freshness := freshness_result
            cross_validation := cross_validation
            fact_check := fact_check
            overall_assessment := overall }

/-- Fixture: registry in which `fake-news.com` is simultaneously trusted
(score 0.95) and blocked, built through the registry operations. -/
def fixtureRegistry : Registry :=
  (block_source
    (add_trusted_source Registry.empty "fake-news.com" "Fake News" (95/100)
      none none false).1
    "fake-news.com" "fabricated statistics" none true).1

/-- Fixture: blocked row stored by `fixtureRegistry`. -/
def fixtureBlockedRow : BlockedSource :=
  { domain := "fake-news.com"
    reason := "fabricated statistics"
    blocked_by := none
    is_permanent := true }

/-- Fixture: an active source whose domain is `fake-news.com`. -/
def fixtureBlockedSource : DataSource :=
  { id := 1
    name := "Fake News Site"
    source_type := .web_scraping
    url := some "https://fake-news.com/article"
    reliability_score := 1/2
    success_rate := some 1
    status := .active
    category := none
    last_successful_fetch := none
    last_failed_fetch := none }

/-- Fixture: registry produced by `add_trusted_source` with the
out-of-range trust score 2.0 (the write boundary performs no validation). -/
def fixtureOverTrustRegistry : Registry :=
  (add_trusted_source Registry.empty "evil.com" "Evil Research" 2
    none none false).1

/-- Fixture: government-typed source on the over-trusted domain, freshly
fetched and with a perfect success rate. -/
def fixtureOverTrustSource : DataSource :=
  { id := 2
    name := "Evil"
    source_type := .government
    url := some "https://evil.com/x"
    reliability_score := 1/2
    success_rate := some 1
    status := .active
    category := none
    last_successful_fetch := some 0
    last_failed_fetch := none }

/-- Fixture: unblocked source whose sub-scores (0.5, 0.0, 0.1, 0.5) combine
to the reliability score 0.27 < 0.5, with a prior successful fetch. -/
def fixtureLowSource : DataSource :=
  { id := 3
    name := "Low"
    source_type := .web_scraping
    url := some "https://example.org/a"
    reliability_score := 1/2
    success_rate := some 0
    status := .active
    category := none
    last_successful_fetch := some 0
    last_failed_fetch := none }

/-- Fixture: a collected item with an explicit content date. -/
def fixtureItem : CollectedData :=
  { id := 10
    source_id := 3
    research_id := some 1
    raw_content := "hello"
    processed_content := none
    content_date := some 0
    collected_date := 0
    extra_metadata := none }

/-- Fixture: a sibling item whose content body is empty. -/
def fixtureEmptyItem : CollectedData :=
  { id := 11
    source_id := 4
    research_id := some 1
    raw_content := ""
    processed_content := none
    content_date := some 0
    collected_date := 0
    extra_metadata := none }

/-- Fixture: a timestamp 300 days after epoch. -/
def fixtureNow : Int := 300 * 86400

/-- Fixture: a blank verification record (all-default row) for fact-check
runs. -/
def fixtureVerification : SourceVerification :=
  { source_id := 3
    status := .pending
    reliability_rating := none
    reliability_score := 0
    trustworthiness_score := 0
    content_quality_score := none
    last_update_check := none
    content_date := none
    is_outdated := false
    days_since_update := none
    fact_check_performed := false
    fact_check_passed := none
    verified_claims := 0
    total_claims := 0
    verification_notes := none
    issues_found := []
    verification_metadata := none
    freshness_meta := none
    verified_at := none }

/-- Helper: `assess_source` never touches the identity, type, URL, success
rate, category or fetch-timestamp fields of the source row, in either
branch. -/
theorem assess_source_frame (rg : Registry) (now : Int) (source : DataSource) :
    (assess_source rg now source).2.id = source.id ∧
    (assess_source rg now source).2.name = source.name ∧
    (assess_source rg now source).2.source_type = source.source_type ∧
    (assess_source rg now source).2.url = source.url ∧
    (assess_source rg now source).2.success_rate = source.success_rate ∧
    (assess_source rg now source).2.category = source.category ∧
    (assess_source rg now source).2.last_successful_fetch =
      source.last_successful_fetch ∧
    (assess_source rg now source).2.last_failed_fetch = source.last_failed_fetch := by
  by_cases h : is_source_blocked rg source <;>
    simp [assess_source, create_blocked_verification, h]

/-- Helper: in the unblocked branch the only source-row change is the
reliability-score write-back. -/
theorem assess_source_snd_of_not_blocked (rg : Registry) (now : Int)
    (source : DataSource) (h : is_source_blocked rg source = false) :
    (assess_source rg now source).2 =
      { source with
        reliability_score := (assess_source rg now source).1.reliability_score } := by
  simp [assess_source, h]

/-- Helper: in the blocked branch the source row gets score 0 and status
`failed`, and nothing else changes. -/
theorem assess_source_snd_of_blocked (rg : Registry) (now : Int)
    (source : DataSource) (h : is_source_blocked rg source = true) :
    (assess_source rg now source).2 =
      { source with reliability_score := 0, status := .failed } := by
  simp [assess_source, create_blocked_verification, h]

/-- Helper: the unblocked reliability score is the four-term weighted sum. -/
theorem assess_source_score_eq (rg : Registry) (now : Int) (source : DataSource)
    (h : is_source_blocked rg source = false) :
    (assess_source rg now source).1.reliability_score =
      calculate_domain_trust rg source * weights.domain_trust
        + calculate_success_rate source * weights.success_rate
        + calculate_freshness_score now source * weights.freshness
        + calculate_content_quality source * weights.content_quality := by
  simp [assess_source, h]

/-- Helper: the domain-trust sub-score stays in [0,1] whenever every stored
trusted-registry trust score does. -/
theorem calculate_domain_trust_bounds (rg : Registry) (source : DataSource)
    (htrust : ∀ t ∈ rg.trusted, 0 ≤ t.trust_score ∧ t.trust_score ≤ 1) :
    0 ≤ calculate_domain_trust rg source ∧ calculate_domain_trust rg source ≤ 1 := by
  unfold calculate_domain_trust
  cases hu : source.url with
  | none => norm_num
  | some url =>
      cases hf : rg.trusted.find? (fun t => t.domain = extractDomain url) with
      | none => simp only [hf]; split_ifs <;> norm_num
      | some t =>
          simp only [hf]
          exact htrust t (List.mem_of_find?_eq_some hf)

/-- Helper: the success-rate sub-score stays in [0,1] whenever the stored
success rate does. -/
theorem calculate_success_rate_bounds (source : DataSource)
    (hsr : ∀ r, source.success_rate = some r → 0 ≤ r ∧ r ≤ 1) :
    0 ≤ calculate_success_rate source ∧ calculate_success_rate source ≤ 1 := by
  unfold calculate_success_rate
  cases hu : source.success_rate with
  | none => norm_num
  | some r => exact hsr r hu

/-- Helper: the fetch-freshness step function only takes values in [0,1]. -/
theorem calculate_freshness_score_bounds (now : Int) (source : DataSource) :
    0 ≤ calculate_freshness_score now source ∧
      calculate_freshness_score now source ≤ 1 := by
  unfold calculate_freshness_score
  cases source.last_successful_fetch with
  | none => norm_num
  | some t => dsimp only; split_ifs <;> norm_num

/-- Helper: the content-quality table only takes values in [0,1]. -/
theorem calculate_content_quality_bounds (source : DataSource) :
    0 ≤ calculate_content_quality source ∧
      calculate_content_quality source ≤ 1 := by
  unfold calculate_content_quality
  cases source.source_type <;> norm_num

/-- Helper: every per-category freshness threshold, including the default
for unmapped or absent categories, is positive. -/
theorem freshness_threshold_get_pos (category : Option String) :
    0 < freshness_threshold_get category := by
  unfold freshness_threshold_get freshness_thresholds
  cases category with
  | none => norm_num
  | some c => dsimp only; split_ifs <;> norm_num

/-- Helper: the item freshness score is never negative. -/
theorem calculate_item_freshness_score_nonneg (d t : Int) :
    0 ≤ calculate_item_freshness_score d t := by
  unfold calculate_item_freshness_score
  split_ifs <;> norm_num

/-- Helper: the item freshness score never exceeds 1. -/
theorem calculate_item_freshness_score_le_one (d t : Int) :
    calculate_item_freshness_score d t ≤ 1 := by
  unfold calculate_item_freshness_score
  split_ifs <;> norm_num

/-- Helper: age at most zero scores 1.0. -/
theorem calculate_item_freshness_score_one (d t : Int) (h : d ≤ 0) :
    calculate_item_freshness_score d t = 1 := by
  unfold calculate_item_freshness_score
  rw [if_pos h]

/-- Helper: age at least twice the threshold scores 0.0. -/
theorem calculate_item_freshness_score_zero (d t : Int) (h : t * 2 ≤ d)
    (h0 : 0 < d) : calculate_item_freshness_score d t = 0 := by
  unfold calculate_item_freshness_score
  rw [if_neg (by omega), if_pos (by omega)]

/-- Helper: strictly between the endpoints, the clamp is the identity and
the score is the plain linear decay. -/
theorem calculate_item_freshness_score_middle (d t : Int) (ht : 0 < t)
    (hd0 : 0 < d) (hd2 : d < t * 2) :
    calculate_item_freshness_score d t = 1 - (d : ℚ) / ((t * 2 : Int) : ℚ) := by
  unfold calculate_item_freshness_score
  rw [if_neg (by omega), if_neg (by omega)]
  have h2t : (0:ℚ) < ((t * 2 : Int) : ℚ) := by
    exact_mod_cast (by omega : (0:Int) < t * 2)
  have hfrac0 : 0 < (d : ℚ) / ((t * 2 : Int) : ℚ) :=
    div_pos (by exact_mod_cast hd0) h2t
  have hfrac1 : (d : ℚ) / ((t * 2 : Int) : ℚ) < 1 := by
    rw [div_lt_one h2t]; exact_mod_cast hd2
  rw [min_eq_right (by linarith), max_eq_right (by linarith)]

/-- Helper: for a fixed positive threshold the item freshness score is
non-increasing in the age. -/
theorem calculate_item_freshness_score_antitone (t d1 d2 : Int) (ht : 0 < t)
    (h : d1 ≤ d2) :
    calculate_item_freshness_score d2 t ≤ calculate_item_freshness_score d1 t := by
  by_cases h1 : d1 ≤ 0
  · rw [calculate_item_freshness_score_one d1 t h1]
    exact calculate_item_freshness_score_le_one d2 t
  · by_cases h2 : t * 2 ≤ d2
    · rw [calculate_item_freshness_score_zero d2 t h2 (by omega)]
      exact calculate_item_freshness_score_nonneg d1 t
    · rw [calculate_item_freshness_score_middle d1 t ht (by omega) (by omega),
        calculate_item_freshness_score_middle d2 t ht (by omega) (by omega)]
      have h2t : (0:ℚ) < ((t * 2 : Int) : ℚ) := by
        exact_mod_cast (by omega : (0:Int) < t * 2)
      have hdiv : (d1 : ℚ) / ((t * 2 : Int) : ℚ) ≤ (d2 : ℚ) / ((t * 2 : Int) : ℚ) := by
        gcongr
      linarith

/-- Helper: field content of the validation record produced by
`validate_data` on a non-empty related list, exposed through the abstract
matching count `m` together with a monotone counting bound for it. -/
theorem validate_data_fields (simFn : String → String → ℚ)
    (diffFn : String → String → List String) (now : Int)
    (item : CollectedData) (related : List CollectedData) (h : related ≠ []) :
    ∃ m : ℕ,
      (validate_data simFn diffFn now item related).matching_sources_count = m ∧
      m ≤ related.length ∧
      (validate_data simFn diffFn now item related).contradicting_sources_count =
        related.length - m ∧
      (validate_data simFn diffFn now item related).total_sources_compared =
        related.length ∧
      (validate_data simFn diffFn now item related).agreement_percentage =
        some ((m : ℚ) / (related.length : ℚ) * 100) ∧
      (validate_data simFn diffFn now item related).is_validated =
        decide ((m : ℚ) / (related.length : ℚ) * 100 ≥ 50) ∧
      (validate_data simFn diffFn now item related).validation_status =
        determine_validation_status ((m : ℚ) / (related.length : ℚ) * 100) ∧
      (∀ q : CollectedData → Bool,
        (∀ r ∈ related,
          (compare_content simFn diffFn (contentBody item) (contentBody r)).is_matching =
            true → q r = true) →
        m ≤ related.countP q) := by
  simp only [validate_data, if_neg h, List.length_map]
  refine ⟨_, rfl, ?_, ?_, ?_, ?_, ?_, ?_, ?_⟩
  rotate_right
  · intro q hq
    rw [List.countP_map]
    exact List.countP_mono_left (fun r hr him => hq r hr him)
  all_goals
    first
    | rfl
    | trivial
    | exact le_trans (List.countP_le_length _) (le_of_eq (List.length_map _ _))

/-- C1: for every source whose domain is in the blocked registry,
`assess_source` (and hence `verify_source`) returns a verification record
with status `failed`, rating `unreliable`, score 0.0, issues
`["blocked_source"]` and a note containing the block reason, computing no
sub-scores (null metadata and content-quality score); the trusted registry
is arbitrary here — in particular the same domain may also be trusted —
because the blocked list is consulted first. -/
theorem C1_blocked_source_assessment (rg : Registry) (now : Int)
    (source : DataSource) (url : String) (b : BlockedSource)
    (hurl : source.url = some url)
    (hb : rg.blocked.find? (fun e => e.domain = extractDomain url) = some b) :
    (assess_source rg now source).1.status = .failed ∧
    (assess_source rg now source).1.reliability_rating = some .unreliable ∧
    (assess_source rg now source).1.reliability_score = 0 ∧
    (assess_source rg now source).1.issues_found = ["blocked_source"] ∧
    (assess_source rg now source).1.verification_notes =
      some ("Source is in blacklist: " ++ b.reason) ∧
    (∃ pre post,
      (assess_source rg now source).1.verification_notes =
        some (pre ++ b.reason ++ post)) ∧
    (assess_source rg now source).1.verification_metadata = none ∧
    (assess_source rg now source).1.content_quality_score = none ∧
    (∀ parseDate extractTextDate latest full_check,
      (verify_source rg parseDate extractTextDate now latest source full_check).1 =
        (assess_source rg now source).1 ∧
      (verify_source rg parseDate extractTextDate now latest source
        full_check).2.2 = false) := by
  have hblocked : is_source_blocked rg source = true := by
    simp [is_source_blocked, hurl, hb]
  have hv : (assess_source rg now source).1 =
      (create_blocked_verification rg now source).1 := by
    simp [assess_source, hblocked]
  have hrec : (create_blocked_verification rg now source).1.status = .failed ∧
      (create_blocked_verification rg now source).1.reliability_rating =
        some .unreliable ∧
      (create_blocked_verification rg now source).1.reliability_score = 0 ∧
      (create_blocked_verification rg now source).1.issues_found =
        ["blocked_source"] ∧
      (create_blocked_verification rg now source).1.verification_notes =
        some ("Source is in blacklist: " ++ b.reason) ∧
      (create_blocked_verification rg now source).1.verification_metadata =
        none ∧
      (create_blocked_verification rg now source).1.content_quality_score =
        none := by
    simp [create_blocked_verification, hurl, hb]
  have hst : (assess_source rg now source).1.status = .failed := by
    rw [hv]; exact hrec.1
  refine ⟨hst, by rw [hv]; exact hrec.2.1, by rw [hv]; exact hrec.2.2.1,
    by rw [hv]; exact hrec.2.2.2.1, by rw [hv]; exact hrec.2.2.2.2.1,
    ⟨"Source is in blacklist: ", "", by
      rw [hv, hrec.2.2.2.2.1]
      simp⟩,
    by rw [hv]; exact hrec.2.2.2.2.2.1, by rw [hv]; exact hrec.2.2.2.2.2.2, ?_⟩
  intro parseDate extractTextDate latest full_check
  constructor
  · simp [verify_source, hst]
  · simp [verify_source, hst]

/-- Witness for C1 at a concrete blocked (and simultaneously trusted)
domain. -/
theorem C1_blocked_source_assessment_witness :
    fixtureBlockedSource.url = some "https://fake-news.com/article" ∧
    fixtureRegistry.blocked.find?
      (fun e => e.domain = extractDomain "https://fake-news.com/article") =
      some fixtureBlockedRow ∧
    (fixtureRegistry.trusted.find?
      (fun t => t.domain = "fake-news.com")).isSome = true ∧
    (assess_source fixtureRegistry 0 fixtureBlockedSource).1.status = .failed ∧
    (assess_source fixtureRegistry 0 fixtureBlockedSource).1.reliability_score =
      0 ∧
    (assess_source fixtureRegistry 0 fixtureBlockedSource).1.issues_found =
      ["blocked_source"] := by
  have h := C1_blocked_source_assessment fixtureRegistry 0 fixtureBlockedSource
    "https://fake-news.com/article" fixtureBlockedRow rfl (by decide)
  exact ⟨rfl, by decide, by decide, h.1, h.2.2.1, h.2.2.2.1⟩

/-- C2: for every unblocked source, the reliability score equals exactly
0.35·domainTrust + 0.25·successRate + 0.20·freshness + 0.15·contentQuality;
the four applied weights sum to 0.95 (the fifth reserved cross-validation
weight of 0.05 is not folded in, the five together summing to 1), and when
all four sub-scores lie in [0,1] the combined score is at most 0.95. -/
theorem C2_reliability_score_formula (rg : Registry) (now : Int)
    (source : DataSource) (h : is_source_blocked rg source = false) :
    ((assess_source rg now source).1.reliability_score =
      calculate_domain_trust rg source * weights.domain_trust
        + calculate_success_rate source * weights.success_rate
        + calculate_freshness_score now source * weights.freshness
        + calculate_content_quality source * weights.content_quality) ∧
    (weights.domain_trust + weights.success_rate + weights.freshness
      + weights.content_quality = 95/100) ∧
    (weights.domain_trust + weights.success_rate + weights.freshness
      + weights.content_quality + weights.cross_validation = 1) ∧
    (0 ≤ calculate_domain_trust rg source → calculate_domain_trust rg source ≤ 1 →
      0 ≤ calculate_success_rate source → calculate_success_rate source ≤ 1 →
      0 ≤ calculate_freshness_score now source →
      calculate_freshness_score now source ≤ 1 →
      0 ≤ calculate_content_quality source → calculate_content_quality source ≤ 1 →
      (assess_source rg now source).1.reliability_score ≤ 95/100) := by
  refine ⟨assess_source_score_eq rg now source h, by norm_num [weights],
    by norm_num [weights], ?_⟩
  intro h1 h2 h3 h4 h5 h6 h7 h8
  rw [assess_source_score_eq rg now source h]
  simp only [weights]
  nlinarith [h2, h4, h6, h8]

/-- Witness for C2 at a concrete unblocked source. -/
theorem C2_reliability_score_formula_witness :
    is_source_blocked Registry.empty fixtureLowSource = false ∧
    ((assess_source Registry.empty fixtureNow fixtureLowSource).1.reliability_score =
      calculate_domain_trust Registry.empty fixtureLowSource * weights.domain_trust
        + calculate_success_rate fixtureLowSource * weights.success_rate
        + calculate_freshness_score fixtureNow fixtureLowSource * weights.freshness
        + calculate_content_quality fixtureLowSource * weights.content_quality) ∧
    (weights.domain_trust + weights.success_rate + weights.freshness
      + weights.content_quality = 95/100) := by
  have h := C2_reliability_score_formula Registry.empty fixtureNow
    fixtureLowSource (by decide)
  exact ⟨by decide, h.1, h.2.1⟩

/-- C3 counterexample: `add_trusted_source` stores a caller-supplied trust
score of 2.0 without any validation at the registry-write boundary, and the
next assessment of a source on that domain produces reliability score
1.285, outside [0,1]. -/
theorem C3_trust_score_not_validated_counterexample :
    ((add_trusted_source Registry.empty "evil.com" "Evil Research" 2
        none none false).2.trust_score = 2) ∧
    ((add_trusted_source Registry.empty "evil.com" "Evil Research" 2
        none none false).1 = fixtureOverTrustRegistry) ∧
    is_source_blocked fixtureOverTrustRegistry fixtureOverTrustSource = false ∧
    (assess_source fixtureOverTrustRegistry 0
      fixtureOverTrustSource).1.reliability_score = 257/200 ∧
    1 < (assess_source fixtureOverTrustRegistry 0
      fixtureOverTrustSource).1.reliability_score := by
  have hnb : is_source_blocked fixtureOverTrustRegistry fixtureOverTrustSource =
      false := by decide
  have hsc : (assess_source fixtureOverTrustRegistry 0
      fixtureOverTrustSource).1.reliability_score = 257/200 := by
    rw [assess_source_score_eq _ _ _ hnb]
    have h1 : calculate_domain_trust fixtureOverTrustRegistry
        fixtureOverTrustSource = 2 := rfl
    have h2 : calculate_success_rate fixtureOverTrustSource = 1 := rfl
    have h3 : calculate_freshness_score 0 fixtureOverTrustSource = 1 := rfl
    have h4 : calculate_content_quality fixtureOverTrustSource = 9/10 := rfl
    rw [h1, h2, h3, h4]
    norm_num [weights]
  exact ⟨rfl, rfl, hnb, hsc, by rw [hsc]; norm_num⟩

/-- C3 amended: the registry-write boundary performs no validation, so the
unit-interval invariant for the reliability score holds exactly for the
registry states whose stored trust scores all lie in [0,1] (together with a
source success rate in [0,1] when present); under those hypotheses the
assessed score is always in [0,1], in both the blocked and unblocked
branches. -/
theorem C3_reliability_score_unit_interval (rg : Registry) (now : Int)
    (source : DataSource)
    (htrust : ∀ t ∈ rg.trusted, 0 ≤ t.trust_score ∧ t.trust_score ≤ 1)
    (hsr : ∀ r, source.success_rate = some r → 0 ≤ r ∧ r ≤ 1) :
    0 ≤ (assess_source rg now source).1.reliability_score ∧
    (assess_source rg now source).1.reliability_score ≤ 1 := by
  by_cases h : is_source_blocked rg source
  · have hv : (assess_source rg now source).1 =
        (create_blocked_verification rg now source).1 := by
      simp [assess_source, h]
    rw [hv]
    constructor <;> simp [create_blocked_verification]
  · obtain ⟨d1, d2⟩ := calculate_domain_trust_bounds rg source htrust
    obtain ⟨s1, s2⟩ := calculate_success_rate_bounds source hsr
    obtain ⟨f1, f2⟩ := calculate_freshness_score_bounds now source
    obtain ⟨q1, q2⟩ := calculate_content_quality_bounds source
    rw [assess_source_score_eq rg now source (by simpa using h)]
    simp only [weights]
    constructor <;> nlinarith

/-- Witness for the amended C3 at a concrete in-range state. -/
theorem C3_reliability_score_unit_interval_witness :
    0 ≤ (assess_source Registry.empty fixtureNow
      fixtureLowSource).1.reliability_score ∧
    (assess_source Registry.empty fixtureNow
      fixtureLowSource).1.reliability_score ≤ 1 := by
  refine C3_reliability_score_unit_interval Registry.empty fixtureNow
    fixtureLowSource ?_ ?_
  · intro t ht
    simp [Registry.empty] at ht
  · intro r hr
    simp only [fixtureLowSource, Option.some.injEq] at hr
    rw [← hr]
    norm_num

/-- C4: when cross-validation is requested and the sibling-item query is
empty, the validation record carries a null confidence score, and
`verify_collected_data` does not complete with neutral defaults: the
overall-assessment step reproduces the Python `TypeError` raised by
`cross_val.get("confidence_score", 0) >= 0.7` on a present key holding
`None`, aborting the composite call for a condition that is not a
missing-Source/Item reference.  This holds for every registry state, every
library-heuristic parameter, every existing source and every item. -/
theorem C4_crossval_missing_siblings_typeerror (rg : Registry)
    (parseDate extractTextDate : String → Option Int)
    (simFn : String → String → ℚ)
    (diffFn : String → String → List String)
    (extract_claimsFn extract_citationsFn extract_statisticsFn :
      String → List String)
    (probe : String → ProbeOutcome) (now : Int)
    (source : DataSource) (item : CollectedData) (perform_fact_check : Bool) :
    verify_collected_data rg parseDate extractTextDate simFn diffFn
      extract_claimsFn extract_citationsFn extract_statisticsFn probe now
      (some source) [] item true perform_fact_check =
      Except.error confidenceNoneTypeError := by
  cases perform_fact_check <;> rfl

/-- C5 counterexample: an unblocked source whose reliability score is 0.27
(< 0.5) — with `fullCheck` true, a prior successful fetch and a most recent
item available — does not get the freshness merge step, because
`verify_source` returns early on the score-driven `failed` status; this
refutes the claimed if-and-only-if condition. -/
theorem C5_low_score_skips_freshness_counterexample :
    is_source_blocked Registry.empty fixtureLowSource = false ∧
    fixtureLowSource.last_successful_fetch.isSome = true ∧
    (assess_source Registry.empty fixtureNow
      fixtureLowSource).1.reliability_score = 27/100 ∧
    (verify_source Registry.empty (fun _ => none) (fun _ => none) fixtureNow
      (some fixtureItem) fixtureLowSource true).2.2 = false := by
  have hnb : is_source_blocked Registry.empty fixtureLowSource = false := by
    decide
  have hsc : (assess_source Registry.empty fixtureNow
      fixtureLowSource).1.reliability_score = 27/100 := by
    rw [assess_source_score_eq _ _ _ hnb]
    have h1 : calculate_domain_trust Registry.empty fixtureLowSource = 1/2 := rfl
    have h2 : calculate_success_rate fixtureLowSource = 0 := rfl
    have h3 : calculate_freshness_score fixtureNow fixtureLowSource = 1/10 := rfl
    have h4 : calculate_content_quality fixtureLowSource = 1/2 := rfl
    rw [h1, h2, h3, h4]
    norm_num [weights]
  have hst : (assess_source Registry.empty fixtureNow
      fixtureLowSource).1.status = VerificationStatus.failed := by
    have hsteq : (assess_source Registry.empty fixtureNow
        fixtureLowSource).1.status =
        determine_verification_status
          ((assess_source Registry.empty fixtureNow
            fixtureLowSource).1.reliability_score) := by
      rw [assess_source_score_eq _ _ _ hnb]
      simp [assess_source, hnb]
    rw [hsteq, hsc]
    norm_num [determine_verification_status]
  exact ⟨hnb, by decide, hsc, by simp [verify_source, hst]⟩

/-- C5 amended: `verify_source` runs the freshness merge step if and only
if the reliability assessment status is not `failed` — equivalently, the
source is unblocked and its reliability score is at least 0.5 — and
`fullCheck` holds and a prior successful fetch exists and a most recent
item is available. -/
theorem C5_freshness_merge_step_iff (rg : Registry)
    (parseDate extractTextDate : String → Option Int) (now : Int)
    (latest : Option CollectedData) (source : DataSource) (full_check : Bool) :
    ((verify_source rg parseDate extractTextDate now latest source
        full_check).2.2 = true ↔
      ((assess_source rg now source).1.status ≠ .failed ∧
        source.last_successful_fetch.isSome = true ∧ full_check = true ∧
        latest.isSome = true)) ∧
    ((assess_source rg now source).1.status ≠ .failed ↔
      (is_source_blocked rg source = false ∧
        1/2 ≤ (assess_source rg now source).1.reliability_score)) := by
  constructor
  · have hfetch := (assess_source_frame rg now source).2.2.2.2.2.2.1
    by_cases hst : (assess_source rg now source).1.status =
        VerificationStatus.failed
    · simp [verify_source, hst]
    · cases latest <;> cases full_check <;>
        simp [verify_source, hst, hfetch] <;>
        cases hls : source.last_successful_fetch <;> simp
  · by_cases hb : is_source_blocked rg source
    · have hst : (assess_source rg now source).1.status =
          VerificationStatus.failed := by
        simp [assess_source, hb, create_blocked_verification]
      simp [hst, hb]
    · have hbf : is_source_blocked rg source = false := by simpa using hb
      have hsteq : (assess_source rg now source).1.status =
          determine_verification_status
            (calculate_domain_trust rg source * weights.domain_trust
              + calculate_success_rate source * weights.success_rate
              + calculate_freshness_score now source * weights.freshness
              + calculate_content_quality source * weights.content_quality) := by
        simp [assess_source, hbf]
      rw [hsteq, assess_source_score_eq rg now source hbf]
      unfold determine_verification_status
      split_ifs with h1 h2
      · simp only [hbf]
        constructor
        · intro _; exact ⟨trivial, by linarith⟩
        · intro _; simp
      · simp only [hbf]
        constructor
        · intro _; exact ⟨trivial, by linarith⟩
        · intro _; simp
      · simp only [hbf]
        constructor
        · intro hcon; exact absurd rfl hcon
        · rintro ⟨-, hge⟩; exact absurd hge h2

/-- Witness for the amended C5 at a concrete source and item. -/
theorem C5_freshness_merge_step_iff_witness :
    ((verify_source Registry.empty (fun _ => none) (fun _ => none) fixtureNow
        (some fixtureItem) fixtureLowSource true).2.2 = true ↔
      ((assess_source Registry.empty fixtureNow fixtureLowSource).1.status ≠
          .failed ∧
        fixtureLowSource.last_successful_fetch.isSome = true ∧ true = true ∧
        (some fixtureItem).isSome = true)) ∧
    ((assess_source Registry.empty fixtureNow fixtureLowSource).1.status ≠
        .failed ↔
      (is_source_blocked Registry.empty fixtureLowSource = false ∧
        1/2 ≤ (assess_source Registry.empty fixtureNow
          fixtureLowSource).1.reliability_score)) :=
  C5_freshness_merge_step_iff Registry.empty (fun _ => none) (fun _ => none)
    fixtureNow (some fixtureItem) fixtureLowSource true

/-- C6: for every item with a resolvable content date and every category,
the freshness check reports the age in whole days and the per-category
threshold (market_data 30, news 90, statistics 365, research 730, general
180, and 180 for any unmapped category), `is_fresh` holds iff the age is at
most the threshold, and the freshness score is the linear decay from 1.0 at
age 0 to 0.0 at twice the threshold, clamped to [0,1] and non-increasing in
the age for the fixed looked-up threshold. -/
theorem C6_freshness_threshold_and_score
    (parseDate extractTextDate : String → Option Int) (now : Int)
    (item : CollectedData) (category : String) (d : Int)
    (hd : extract_content_date parseDate extractTextDate item = some d) :
    ((check_freshness parseDate extractTextDate now item
        (some category)).days_old = some (Int.fdiv (now - d) 86400)) ∧
    ((check_freshness parseDate extractTextDate now item
        (some category)).threshold_days =
      freshness_threshold_get (some category)) ∧
    ((check_freshness parseDate extractTextDate now item
        (some category)).is_fresh = some true ↔
      Int.fdiv (now - d) 86400 ≤ freshness_threshold_get (some category)) ∧
    ((check_freshness parseDate extractTextDate now item
        (some category)).freshness_score =
      some (calculate_item_freshness_score (Int.fdiv (now - d) 86400)
        (freshness_threshold_get (some category)))) ∧
    (freshness_threshold_get (some "market_data") = 30 ∧
      freshness_threshold_get (some "news") = 90 ∧
      freshness_threshold_get (some "statistics") = 365 ∧
      freshness_threshold_get (some "research") = 730 ∧
      freshness_threshold_get (some "general") = 180) ∧
    (category ≠ "market_data" → category ≠ "news" → category ≠ "statistics" →
      category ≠ "research" → category ≠ "general" →
      freshness_threshold_get (some category) = 180) ∧
    0 < freshness_threshold_get (some category) ∧
    (∀ D T : Int, 0 < T →
      (0 ≤ calculate_item_freshness_score D T ∧
        calculate_item_freshness_score D T ≤ 1) ∧
      (D ≤ 0 → calculate_item_freshness_score D T = 1) ∧
      (T * 2 ≤ D → 0 < D → calculate_item_freshness_score D T = 0) ∧
      (0 < D → D < T * 2 →
        calculate_item_freshness_score D T =
          1 - (D : ℚ) / ((T * 2 : Int) : ℚ))) ∧
    (∀ D1 D2 : Int, D1 ≤ D2 →
      calculate_item_freshness_score D2 (freshness_threshold_get (some category)) ≤
        calculate_item_freshness_score D1
          (freshness_threshold_get (some category))) := by
  refine ⟨?_, ?_, ?_, ?_, ⟨rfl, rfl, rfl, rfl, rfl⟩, ?_, freshness_threshold_get_pos _,
    ?_, ?_⟩
  · simp [check_freshness, hd]
  · simp [check_freshness, hd]
  · simp [check_freshness, hd]
  · simp [check_freshness, hd]
  · intro h1 h2 h3 h4 h5
    simp [freshness_threshold_get, freshness_thresholds, h1, h2, h3, h4, h5]
  · intro D T hT
    exact ⟨⟨calculate_item_freshness_score_nonneg D T,
        calculate_item_freshness_score_le_one D T⟩,
      calculate_item_freshness_score_one D T,
      fun h h0 => calculate_item_freshness_score_zero D T h h0,
      fun h0 h2 => calculate_item_freshness_score_middle D T hT h0 h2⟩
  · intro D1 D2 hle
    exact calculate_item_freshness_score_antitone _ D1 D2
      (freshness_threshold_get_pos _) hle

/-- Witness for C6 at a concrete item, the category `news` and an age of
300 days. -/
theorem C6_freshness_threshold_and_score_witness :
    extract_content_date (fun _ => none) (fun _ => none) fixtureItem = some 0 ∧
    ((check_freshness (fun _ => none) (fun _ => none) fixtureNow fixtureItem
        (some "news")).days_old = some (Int.fdiv (fixtureNow - 0) 86400)) ∧
    ((check_freshness (fun _ => none) (fun _ => none) fixtureNow fixtureItem
        (some "news")).is_fresh = some true ↔
      Int.fdiv (fixtureNow - 0) 86400 ≤ freshness_threshold_get (some "news")) ∧
    freshness_threshold_get (some "news") = 90 := by
  have h := C6_freshness_threshold_and_score (fun _ => none) (fun _ => none)
    fixtureNow fixtureItem "news" 0 rfl
  exact ⟨rfl, h.1, h.2.2.1, h.2.2.2.2.1.2.1⟩

/-- C7: for every item and non-empty related list, the validation record
satisfies matching + contradicting = total compared (= the number of
related items), the agreement percentage is in [0,100], `is_validated`
holds iff the agreement is at least 50, and the status is `verified` at
agreement ≥ 80, `flagged` at 50 ≤ agreement < 80 and `failed` below 50 —
for every similarity and diff heuristic. -/
theorem C7_cross_validation_invariants (simFn : String → String → ℚ)
    (diffFn : String → String → List String) (now : Int)
    (item : CollectedData) (related : List CollectedData) (h : related ≠ []) :
    ∃ a : ℚ,
      (validate_data simFn diffFn now item related).agreement_percentage =
        some a ∧
      a = ((validate_data simFn diffFn now item
          related).matching_sources_count : ℚ) / (related.length : ℚ) * 100 ∧
      (validate_data simFn diffFn now item related).matching_sources_count +
        (validate_data simFn diffFn now item
          related).contradicting_sources_count = related.length ∧
      (validate_data simFn diffFn now item related).total_sources_compared =
        related.length ∧
      0 ≤ a ∧ a ≤ 100 ∧
      ((validate_data simFn diffFn now item related).is_validated = true ↔
        50 ≤ a) ∧
      ((validate_data simFn diffFn now item related).validation_status =
          .verified ↔ 80 ≤ a) ∧
      ((validate_data simFn diffFn now item related).validation_status =
          .flagged ↔ 50 ≤ a ∧ a < 80) ∧
      ((validate_data simFn diffFn now item related).validation_status =
          .failed ↔ a < 50) := by
  obtain ⟨m, h1, hmle, h2, h3, h4, h5, h6, -⟩ :=
    validate_data_fields simFn diffFn now item related h
  have hn : 0 < related.length := List.length_pos.mpr h
  have hnq : (0:ℚ) < (related.length : ℚ) := by exact_mod_cast hn
  have hmq : (m : ℚ) ≤ (related.length : ℚ) := by exact_mod_cast hmle
  refine ⟨(m : ℚ) / (related.length : ℚ) * 100, h4, ?_, ?_, h3, ?_, ?_, ?_,
    ?_, ?_, ?_⟩
  · rw [h1]
  · rw [h1, h2]; omega
  · positivity
  · have hd1 : (m : ℚ) / (related.length : ℚ) ≤ 1 := (div_le_one hnq).mpr hmq
    nlinarith
  · rw [h5]; simp [ge_iff_le]
  · rw [h6]; unfold determine_validation_status
    split_ifs with h80 h50
    · exact iff_of_true rfl h80
    · exact iff_of_false (by simp) h80
    · exact iff_of_false (by simp) h80
  · rw [h6]; unfold determine_validation_status
    split_ifs with h80 h50
    · exact iff_of_false (by simp) (by rintro ⟨-, hlt⟩; linarith)
    · exact iff_of_true rfl ⟨h50, not_le.mp h80⟩
    · exact iff_of_false (by simp) (by rintro ⟨h5a, -⟩; exact h50 h5a)
  · rw [h6]; unfold determine_validation_status
    split_ifs with h80 h50
    · exact iff_of_false (by simp) (by intro hlt; linarith)
    · exact iff_of_false (by simp) (by intro hlt; linarith)
    · exact iff_of_true rfl (not_le.mp h50)

/-- Witness for C7 at a concrete two-item related list. -/
theorem C7_cross_validation_invariants_witness :
    ∃ a : ℚ,
      (validate_data (fun _ _ => 1) (fun _ _ => []) 0 fixtureItem
        [fixtureEmptyItem, fixtureItem]).agreement_percentage = some a ∧
      a = ((validate_data (fun _ _ => 1) (fun _ _ => []) 0 fixtureItem
          [fixtureEmptyItem, fixtureItem]).matching_sources_count : ℚ) /
          (([fixtureEmptyItem, fixtureItem] : List CollectedData).length : ℚ) *
          100 ∧
      (validate_data (fun _ _ => 1) (fun _ _ => []) 0 fixtureItem
        [fixtureEmptyItem, fixtureItem]).matching_sources_count +
        (validate_data (fun _ _ => 1) (fun _ _ => []) 0 fixtureItem
          [fixtureEmptyItem, fixtureItem]).contradicting_sources_count =
          ([fixtureEmptyItem, fixtureItem] : List CollectedData).length ∧
      (validate_data (fun _ _ => 1) (fun _ _ => []) 0 fixtureItem
        [fixtureEmptyItem, fixtureItem]).total_sources_compared =
        ([fixtureEmptyItem, fixtureItem] : List CollectedData).length ∧
      0 ≤ a ∧ a ≤ 100 ∧
      ((validate_data (fun _ _ => 1) (fun _ _ => []) 0 fixtureItem
        [fixtureEmptyItem, fixtureItem]).is_validated = true ↔ 50 ≤ a) ∧
      ((validate_data (fun _ _ => 1) (fun _ _ => []) 0 fixtureItem
        [fixtureEmptyItem, fixtureItem]).validation_status = .verified ↔
        80 ≤ a) ∧
      ((validate_data (fun _ _ => 1) (fun _ _ => []) 0 fixtureItem
        [fixtureEmptyItem, fixtureItem]).validation_status = .flagged ↔
        50 ≤ a ∧ a < 80) ∧
      ((validate_data (fun _ _ => 1) (fun _ _ => []) 0 fixtureItem
        [fixtureEmptyItem, fixtureItem]).validation_status = .failed ↔
        a < 50) :=
  C7_cross_validation_invariants (fun _ _ => 1) (fun _ _ => []) 0 fixtureItem
    [fixtureEmptyItem, fixtureItem] (by simp)

/-- C8: the fact-check passes iff the verification rate
verifiedClaims/totalClaims is at least 0.7 when totalClaims > 0, and
vacuously when nothing was extracted; in particular an item with zero
extractable claims, citations and statistics yields a passed check with
totalClaims = 0.  Holds for every extractor heuristic and probe. -/
theorem C8_fact_check_pass_rule
    (extract_claimsFn extract_citationsFn extract_statisticsFn :
      String → List String)
    (probe : String → ProbeOutcome) (item : CollectedData)
    (v : SourceVerification) :
    ((check_facts extract_claimsFn extract_citationsFn extract_statisticsFn
        probe item v).1.total_claims =
      (extract_claimsFn (contentBody item)).length +
        (extract_citationsFn (contentBody item)).length +
        (extract_statisticsFn (contentBody item)).length) ∧
    ((check_facts extract_claimsFn extract_citationsFn extract_statisticsFn
        probe item v).1.fact_check_passed = true ↔
      ((check_facts extract_claimsFn extract_citationsFn extract_statisticsFn
          probe item v).1.total_claims = 0 ∨
        (7:ℚ)/10 ≤
          ((check_facts extract_claimsFn extract_citationsFn
              extract_statisticsFn probe item v).1.verified_claims : ℚ) /
            ((check_facts extract_claimsFn extract_citationsFn
                extract_statisticsFn probe item v).1.total_claims : ℚ))) ∧
    ((extract_claimsFn (contentBody item) = [] ∧
        extract_citationsFn (contentBody item) = [] ∧
        extract_statisticsFn (contentBody item) = []) →
      ((check_facts extract_claimsFn extract_citationsFn extract_statisticsFn
          probe item v).1.fact_check_passed = true ∧
        (check_facts extract_claimsFn extract_citationsFn extract_statisticsFn
          probe item v).1.total_claims = 0)) := by
  refine ⟨?_, ?_, ?_⟩
  · simp [check_facts]
  · simp only [check_facts]
    rcases Nat.eq_zero_or_pos ((extract_claimsFn (contentBody item)).length +
        (extract_citationsFn (contentBody item)).length +
        (extract_statisticsFn (contentBody item)).length) with h0 | hpos
    · simp [h0]
    · simp only [if_pos hpos, decide_eq_true_eq, ge_iff_le]
      constructor
      · intro hge; right; exact hge
      · rintro (hz | hge)
        · omega
        · exact hge
  · rintro ⟨h1, h2, h3⟩
    simp [check_facts, h1, h2, h3, verify_citations]

/-- Witness for C8 at an item with no extractable claims or citations. -/
theorem C8_fact_check_pass_rule_witness :
    (fun _ : String => ([] : List String)) (contentBody fixtureItem) = [] ∧
    ((check_facts (fun _ => []) (fun _ => []) (fun _ => [])
        (fun _ => ProbeOutcome.success 200) fixtureItem
        fixtureVerification).1.fact_check_passed = true ∧
      (check_facts (fun _ => []) (fun _ => []) (fun _ => [])
        (fun _ => ProbeOutcome.success 200) fixtureItem
        fixtureVerification).1.total_claims = 0) := by
  have h := C8_fact_check_pass_rule (fun _ => []) (fun _ => []) (fun _ => [])
    (fun _ => ProbeOutcome.success 200) fixtureItem fixtureVerification
  exact ⟨rfl, h.2.2 ⟨rfl, rfl, rfl⟩⟩

/-- C9 counterexample: assessing a blocked source mutates the source's
`status` field (from `active` to `failed`) in addition to the reliability
score, refuting the claim that status is left unchanged in the
blocked-source path. -/
theorem C9_status_mutation_counterexample :
    fixtureBlockedSource.status = SourceStatus.active ∧
    (assess_source fixtureRegistry 0 fixtureBlockedSource).2.status =
      SourceStatus.failed ∧
    (assess_source fixtureRegistry 0 fixtureBlockedSource).2.status ≠
      fixtureBlockedSource.status := by
  decide

/-- C9 amended: `assess_source` never modifies the identity, type, URL,
success rate, category or fetch-timestamp fields; in the unblocked path the
only modified field is the reliability score (written back from the
assessment), while in the blocked path exactly the reliability score (set
to 0) and the status (set to `failed`) are modified. -/
theorem C9_assess_source_write_set (rg : Registry) (now : Int)
    (source : DataSource) :
    ((assess_source rg now source).2.id = source.id ∧
      (assess_source rg now source).2.name = source.name ∧
      (assess_source rg now source).2.source_type = source.source_type ∧
      (assess_source rg now source).2.url = source.url ∧
      (assess_source rg now source).2.success_rate = source.success_rate ∧
      (assess_source rg now source).2.category = source.category ∧
      (assess_source rg now source).2.last_successful_fetch =
        source.last_successful_fetch ∧
      (assess_source rg now source).2.last_failed_fetch =
        source.last_failed_fetch) ∧
    (is_source_blocked rg source = false →
      (assess_source rg now source).2 =
        { source with
          reliability_score :=
            (assess_source rg now source).1.reliability_score }) ∧
    (is_source_blocked rg source = true →
      (assess_source rg now source).2 =
        { source with reliability_score := 0, status := .failed }) :=
  ⟨assess_source_frame rg now source,
    fun h => assess_source_snd_of_not_blocked rg now source h,
    fun h => assess_source_snd_of_blocked rg now source h⟩

/-- Witness for the amended C9 at the blocked fixture. -/
theorem C9_assess_source_write_set_witness :
    (assess_source fixtureRegistry 0 fixtureBlockedSource).2.success_rate =
      fixtureBlockedSource.success_rate ∧
    (assess_source fixtureRegistry 0 fixtureBlockedSource).2.last_successful_fetch =
      fixtureBlockedSource.last_successful_fetch ∧
    (assess_source fixtureRegistry 0 fixtureBlockedSource).2 =
      { fixtureBlockedSource with
        reliability_score := 0
        status := .failed } := by
  have h := C9_assess_source_write_set fixtureRegistry 0 fixtureBlockedSource
  exact ⟨h.1.2.2.2.2.1, h.1.2.2.2.2.2.2.1, h.2.2 (by decide)⟩

/-- C10: a comparison in which either content body is empty yields
similarity 0.0 and no match, so an empty-content sibling is always counted
— the compared total is the full related list, the empty-content pairs
contribute comparison entries with similarity 0 and `is_matching = false`,
the matching count is bounded away by the number of empty-content pairs and
the contradicting count dominates it — for every similarity and diff
heuristic. -/
theorem C10_empty_content_counts_contradicting (simFn : String → String → ℚ)
    (diffFn : String → String → List String) (now : Int)
    (item : CollectedData) (related : List CollectedData) (h : related ≠ []) :
    (∀ c1 c2 : String, c1 = "" ∨ c2 = "" →
      compare_content simFn diffFn c1 c2 =
        { similarity := 0, is_matching := false,
          differences := ["One or both contents are empty"] }) ∧
    (validate_data simFn diffFn now item related).total_sources_compared =
      related.length ∧
    (∀ r ∈ related, contentBody item = "" ∨ contentBody r = "" →
      ({ source_id := r.source_id, similarity := 0, is_matching := false,
          differences := ["One or both contents are empty"] } : Comparison) ∈
        (validate_data simFn diffFn now item related).comparisons) ∧
    (validate_data simFn diffFn now item related).matching_sources_count +
        related.countP
          (fun r => decide (contentBody item = "") ||
            decide (contentBody r = "")) ≤
      related.length ∧
    related.countP
        (fun r => decide (contentBody item = "") ||
          decide (contentBody r = "")) ≤
      (validate_data simFn diffFn now item related).contradicting_sources_count := by
  have hcomp : ∀ c1 c2 : String, c1 = "" ∨ c2 = "" →
      compare_content simFn diffFn c1 c2 =
        { similarity := 0, is_matching := false,
          differences := ["One or both contents are empty"] } := by
    intro c1 c2 hc
    rcases hc with hc | hc <;> simp [compare_content, hc]
  obtain ⟨m, h1, hmle, h2, h3, h4, h5, h6, hmono⟩ :=
    validate_data_fields simFn diffFn now item related h
  have hkey : m ≤ related.countP
      (fun r => !(decide (contentBody item = "") ||
        decide (contentBody r = ""))) := by
    apply hmono
    intro r hr him
    by_contra hq
    simp only [Bool.not_eq_true, Bool.not_eq_false'] at hq
    rcases Bool.or_eq_true_iff.mp hq with he | he
    · rw [hcomp _ _ (Or.inl (by simpa using he))] at him
      exact Bool.false_ne_true him
    · rw [hcomp _ _ (Or.inr (by simpa using he))] at him
      exact Bool.false_ne_true him
  have hsplit : related.length =
      related.countP
        (fun r => decide (contentBody item = "") ||
          decide (contentBody r = "")) +
      related.countP
        (fun r => !(decide (contentBody item = "") ||
          decide (contentBody r = ""))) := by
    rw [List.length_eq_countP_add_countP
      (fun r => decide (contentBody item = "") || decide (contentBody r = ""))]
    congr 1
    apply List.countP_congr
    intro r hr
    simp
  refine ⟨hcomp, h3, ?_, ?_, ?_⟩
  · intro r hr hempty
    simp only [validate_data, if_neg h]
    refine List.mem_map.mpr ⟨r, hr, ?_⟩
    rw [hcomp (contentBody item) (contentBody r) hempty]
  · rw [h1]
    omega
  · rw [h2]
    omega

/-- Witness for C10 at a concrete related list containing an empty-content
sibling. -/
theorem C10_empty_content_counts_contradicting_witness :
    (compare_content (fun _ _ => 1) (fun _ _ => []) "hello" "" =
      { similarity := 0, is_matching := false,
        differences := ["One or both contents are empty"] }) ∧
    (validate_data (fun _ _ => 1) (fun _ _ => []) 0 fixtureItem
      [fixtureEmptyItem]).total_sources_compared =
      ([fixtureEmptyItem] : List CollectedData).length ∧
    (validate_data (fun _ _ => 1) (fun _ _ => []) 0 fixtureItem
        [fixtureEmptyItem]).matching_sources_count +
      ([fixtureEmptyItem] : List CollectedData).countP
        (fun r => decide (contentBody fixtureItem = "") ||
          decide (contentBody r = "")) ≤
      ([fixtureEmptyItem] : List CollectedData).length := by
  have h := C10_empty_content_counts_contradicting (fun _ _ => 1)
    (fun _ _ => []) 0 fixtureItem [fixtureEmptyItem] (by simp)
  exact ⟨h.1 "hello" "" (Or.inr rfl), h.2.1, h.2.2.2.1⟩
